import Mathlib

set_option maxRecDepth 100000

/-!
Clipboard image retrieval: a formal model of `src/raw/clipboardimage.rs`.

The embedding covers the format catalog (`get_mappedformat_for`), the
availability resolver (`get_id_for_format`), the DIB container-header
synthesizer (the `CF_DIBV5` arm of `impl From<&[&str]> for
ClipboardImage`, factored as `wrap_dib`), the builder loop (`buildLoop`)
and `write_to_buffer`.

Modelling conventions:
* Bytes are `Nat`; 32-bit wraparound is explicit `% 2 ^ 32`.
* External collaborators (clipboard enumeration, `format_name`, `size`,
  `get_vec`, the image codec) are fields of a `ClipEnv` record.
* A Rust panic (a failing `unwrap`, an out-of-range slice, the
  unreachable match arm) is modelled as `Option.none` of the whole call;
  a normal return is `Option.some`.
-/

/-- Decoded images are opaque to this module; a token stands for the
`DynamicImage` produced by the external codec. -/
def DynamicImage := Nat
  deriving DecidableEq

/-- The codec tags used by the catalog (the `image::ImageFormat` members
that appear in the source). -/
inductive ImageFormat where
  | Bmp
  | Png
  | Jpeg
  | Gif
  | Ico
  | WebP
  deriving DecidableEq, Repr

/-- The result type `ClipboardImage` from the source: a tagged union of a
binary image, a textual image, or nothing found. -/
inductive ClipboardImage where
  | ImageBinary (format : ImageFormat) (di : Option DynamicImage)
  | ImageString (id : Nat) (name : String) (bytes : List Nat)
  | NotFound
  deriving DecidableEq

/-- Catalog entry type `MappedFormat` from the source: a payload kind, the
candidate clipboard-format names (the source's `[&str; 2]`), and an
optional codec tag. -/
structure MappedFormat where
  kind : String
  names : List String
  format : Option ImageFormat
  deriving DecidableEq

/-- The static catalog `ClipboardImage::get_mappedformat_for`. Returns
`none` for any name outside the seven known entries. -/
def get_mappedformat_for (imgtype : String) : Option MappedFormat :=
  match imgtype with
  | "Bmp" => some ⟨"binary", ["CF_DIBV5", ""], some ImageFormat.Bmp⟩
  | "Png" => some ⟨"binary", ["PNG", "image/png"], some ImageFormat.Png⟩
  | "Jpeg" => some ⟨"binary", ["JFIF", "image/jpeg"], some ImageFormat.Jpeg⟩
  | "Gif" => some ⟨"binary", ["GIF", "image/gif"], some ImageFormat.Gif⟩
  | "Ico" => some ⟨"binary", ["image/ico", ""], some ImageFormat.Ico⟩
  | "WebP" => some ⟨"binary", ["image/webp", ""], some ImageFormat.WebP⟩
  | "Svg" => some ⟨"string", ["image/svg+xml", ""], none⟩
  | _ => none

/-- The availability scan `ClipboardImage::get_id_for_format`: walk the
clipboard's enumerated formats in order; each entry is
`(identifier, format_name identifier)`. The source unwraps `format_name`
for every enumerated identifier it visits, so a `none` name is a panic
(`Option.none` here). The first identifier whose name is contained in
`requested` wins; exhaustion returns `(0, "")` exactly as the source's
initial values do. -/
def get_id_for_format (requested : List String) :
    List (Nat × Option String) → Option (Nat × String)
  | [] => some (0, "")
  | (no, availName) :: rest =>
    match availName with
    | none => none
    | some available =>
      if available ∈ requested then some (no, available)
      else get_id_for_format requested rest

/-- Little-endian bytes of a value truncated to `u16`
(`u16::to_le_bytes`). -/
def u16le (n : Nat) : List Nat :=
  [n % 256, n / 256 % 256]

/-- Little-endian bytes of a value truncated to `u32`
(`u32::to_le_bytes`). -/
def u32le (n : Nat) : List Nat :=
  [n % 256, n / 256 % 256, n / 2 ^ 16 % 256, n / 2 ^ 24 % 256]

/-- Read a little-endian `u32` field at byte offset `i` (the source reads
struct fields through a pointer into the buffer; the fields are
little-endian on the target). -/
def readU32 (l : List Nat) (i : Nat) : Nat :=
  l.getD i 0 + 2 ^ 8 * l.getD (i + 1) 0 + 2 ^ 16 * l.getD (i + 2) 0 +
    2 ^ 24 * l.getD (i + 3) 0

/-- The `CF_DIBV5` arm of the builder, lines 177–224 of the source: build
the 14-byte `BITMAPFILEHEADER` (magic `0x4d42`, total size
`14 + rawsize` as `u32`, four reserved zero bytes, placeholder offset),
append the fetched DIB bytes, then patch bytes 10..14 with the pixel-data
offset: `14 + 124` when the info-header's `bV5SizeImage` (a `u32` at byte
34 of the buffer, i.e. byte 20 of the DIB) is zero, otherwise
`14 + (rawsize - bV5SizeImage)` in wrapping `u32` arithmetic.
`sizeof(BITMAPFILEHEADER) = 14` and `sizeof(BITMAPV5HEADER) = 124`.
The source slices `store[14..138]` to view the info-header, which panics
(`none`) when the buffer is shorter than 138 bytes. -/
def wrap_dib (rawsize : Nat) (raw : List Nat) : Option (List Nat) :=
  let store : List Nat :=
    u16le 0x4d42 ++ u32le ((14 + rawsize % 2 ^ 32) % 2 ^ 32) ++
      u16le 0 ++ u16le 0 ++ u32le 0 ++ raw
  if store.length < 138 then none
  else
    let size_image := readU32 store 34
    let offs : Nat :=
      if size_image = 0 then 14 + 124
      else (14 + (rawsize % 2 ^ 32 + 2 ^ 32 - size_image % 2 ^ 32) % 2 ^ 32) % 2 ^ 32
    some (store.take 10 ++ u32le offs ++ store.drop 14)

/-- The pixel-data offset value `wrap_dib` writes to bytes 10..14, as a
function of the reported size and the DIB bytes (`bV5SizeImage` is byte
20..24 of the DIB). -/
def dibOffset (rawsize : Nat) (raw : List Nat) : Nat :=
  if readU32 raw 20 = 0 then 14 + 124
  else (14 + (rawsize % 2 ^ 32 + 2 ^ 32 - readU32 raw 20 % 2 ^ 32) % 2 ^ 32) % 2 ^ 32

/-- The external collaborators consumed by the builder: the enumerated
clipboard formats with their `format_name` results (in enumeration
order), `size`, `get_vec` (the bytes it appends on `Ok`, `none` on
`Err`), and the codec's `load_from_memory_with_format`. -/
structure ClipEnv where
  formats : List (Nat × Option String)
  sizeOf : Nat → Option Nat
  getVec : Nat → Option (List Nat)
  decode : List Nat → ImageFormat → Option DynamicImage

/-- The loop body of `impl From<&[&str]> for ClipboardImage`. For each
preferred name in order: look it up in the catalog (`unwrap` — an unknown
name panics); resolve an identifier among the available formats; if none
matched (`id = 0`) fall through to the next preferred name; otherwise
handle the match and `break` — for `CF_DIBV5`, `size(id).unwrap()`, fetch,
synthesize the container via `wrap_dib`, decode; for other binary names,
fetch and decode directly; for string entries, fetch and return the
bytes verbatim. Any fetch or decode failure after a successful resolution
leaves `result` at `NotFound` and still breaks. -/
def buildLoop (env : ClipEnv) : List String → Option ClipboardImage
  | [] => some ClipboardImage.NotFound
  | pf :: rest =>
    match get_mappedformat_for pf with
    | none => none
    | some mf =>
      if mf.kind = "binary" then
        match get_id_for_format mf.names env.formats with
        | none => none
        | some (id, name) =>
          if id ≠ 0 then
            if name = "CF_DIBV5" then
              match env.sizeOf id with
              | none => none
              | some rawsize =>
                match env.getVec id with
                | none => some ClipboardImage.NotFound
                | some raw =>
                  if raw.length > 0 then
                    match wrap_dib rawsize raw with
                    | none => none
                    | some store =>
                      match mf.format with
                      | none => none
                      | some fmt =>
                        match env.decode store fmt with
                        | some di =>
                          some (ClipboardImage.ImageBinary fmt (some di))
                        | none => some ClipboardImage.NotFound
                  else some ClipboardImage.NotFound
            else
              match env.getVec id with
              | none => some ClipboardImage.NotFound
              | some raw =>
                match mf.format with
                | none => none
                | some fmt =>
                  match env.decode raw fmt with
                  | some di => some (ClipboardImage.ImageBinary fmt (some di))
                  | none => some ClipboardImage.NotFound
          else buildLoop env rest
      else if mf.kind = "string" then
        match get_id_for_format mf.names env.formats with
        | none => none
        | some (id, name) =>
          if id ≠ 0 then
            match env.getVec id with
            | none => some ClipboardImage.NotFound
            | some raw => some (ClipboardImage.ImageString id name raw)
          else buildLoop env rest
      else none

/-- Entry point `ClipboardImage::new` / `impl From<&[&str]>`: run the
fallthrough loop with `result` initialized to `NotFound` (already the
value returned when the list is exhausted). -/
def fromFormats (env : ClipEnv) (preferred_formats : List String) :
    Option ClipboardImage :=
  buildLoop env preferred_formats

/-- Model of `ClipboardImage::write_to_buffer`, with `encode` standing
for `DynamicImage::write_to` as the bytes it appends on success. A
string image appends its bytes and returns the buffer's total length; a
binary image unwraps its `DynamicImage` (a `none` di panics),
re-encodes, and returns the length increase (`out.len() - out_before`);
a failed encode is the `Err(SystemError)` path (`none` here); `NotFound`
returns 0. The result pairs the final buffer with the returned count. -/
def write_to_buffer (encode : DynamicImage → ImageFormat → Option (List Nat)) :
    ClipboardImage → List Nat → Option (List Nat × Nat)
  | ClipboardImage.ImageString _ _ s, out =>
    some (out ++ s, (out ++ s).length)
  | ClipboardImage.ImageBinary f di, out =>
    match di with
    | none => none
    | some d =>
      match encode d f with
      | some enc => some (out ++ enc, (out ++ enc).length - out.length)
      | none => none
  | ClipboardImage.NotFound, out => some (out, 0)

/-- An all-zero 124-byte DIB blob (a blank `BITMAPV5HEADER`), used as a
concrete test vector. -/
def dib0 : List Nat := List.replicate 124 0

/-- The container `wrap_dib` synthesizes from `dib0`. -/
def dib0c : List Nat :=
  [66, 77, 138, 0, 0, 0, 0, 0, 0, 0, 138, 0, 0, 0] ++ dib0

/-- A concrete environment: the clipboard advertises a PNG (id 1) and a
bare DIB (id 2); the codec decodes only the Bmp container. -/
def envDemo : ClipEnv :=
  { formats := [(1, some ("PNG")), (2, some ("CF_DIBV5"))],
    sizeOf := fun _ => some 124,
    getVec := fun id => if id = 1 then some [1, 2, 3] else some dib0,
    decode := fun _ f =>
      match f with
      | ImageFormat.Bmp => some (7 : Nat)
      | _ => none }

/-- A concrete environment whose fetches always fail, advertising a PNG,
a bare DIB and an SVG. -/
def envFetchFail : ClipEnv :=
  { formats := [(1, some ("PNG")), (2, some ("CF_DIBV5")),
      (3, some ("image/svg+xml"))],
    sizeOf := fun _ => some 3,
    getVec := fun _ => none,
    decode := fun _ _ => none }

/-- A concrete environment advertising only a bare DIB whose fetch
succeeds but whose decode always fails. -/
def envDibFail : ClipEnv :=
  { formats := [(2, some ("CF_DIBV5"))],
    sizeOf := fun _ => some 124,
    getVec := fun _ => some dib0,
    decode := fun _ _ => none }

/-- A concrete environment advertising only a bare DIB whose fetch
returns zero bytes. -/
def envDibEmpty : ClipEnv :=
  { formats := [(2, some ("CF_DIBV5"))],
    sizeOf := fun _ => some 124,
    getVec := fun _ => some [],
    decode := fun _ _ => none }

/-- A concrete codec for the `write_to_buffer` witness: encodes an image
token as a single byte. -/
def enc0 : DynamicImage → ImageFormat → Option (List Nat) :=
  fun d _ => some [d]

/-- Structural form of `wrap_dib` when the DIB is long enough to hold the
124-byte info-header: the output is the 14-byte file header followed by
the unmodified DIB bytes. -/
theorem wrap_dib_eq (rawsize : Nat) (raw : List Nat) (h : 124 ≤ raw.length) :
    wrap_dib rawsize raw =
      some (u16le 0x4d42 ++ u32le ((14 + rawsize % 2 ^ 32) % 2 ^ 32) ++
        [0, 0, 0, 0] ++ u32le (dibOffset rawsize raw) ++ raw) := by
  unfold wrap_dib
  rw [if_neg]
  · rfl
  · simp [u16le, u32le]
    omega

/-- C3: for every raw DIB blob holding at least the 124-byte info header,
with `14 + len(raw)` within `u32` range, the synthesized container has
length exactly `14 + len(raw)`, begins with the magic `0x4d42` ('BM') in
little-endian, carries the little-endian total size `14 + len(raw)` at
bytes 2..6, has four zero reserved bytes at 6..10, and its bytes from 14
on are the raw blob unmodified. -/
theorem wrap_dib_container_layout (raw : List Nat) (h124 : 124 ≤ raw.length)
    (hfit : raw.length + 14 < 2 ^ 32) :
    ∃ c, wrap_dib raw.length raw = some c ∧
      c.length = 14 + raw.length ∧
      c.take 2 = u16le 0x4d42 ∧
      (c.drop 2).take 4 = u32le (14 + raw.length) ∧
      (c.drop 6).take 4 = [0, 0, 0, 0] ∧
      c.drop 14 = raw := by
  refine ⟨_, wrap_dib_eq raw.length raw h124, ?_, ?_, ?_, ?_, ?_⟩
  · simp [u16le, u32le]
    omega
  · rfl
  · show u32le ((14 + raw.length % 2 ^ 32) % 2 ^ 32) = u32le (14 + raw.length)
    congr 1
    omega
  · rfl
  · rfl

theorem wrap_dib_container_layout_witness :
    ∃ c, wrap_dib dib0.length dib0 = some c ∧
      c.length = 14 + dib0.length ∧
      c.take 2 = u16le 0x4d42 ∧
      (c.drop 2).take 4 = u32le (14 + dib0.length) ∧
      (c.drop 6).take 4 = [0, 0, 0, 0] ∧
      c.drop 14 = dib0 :=
  wrap_dib_container_layout dib0 (by decide) (by decide)

/-- C2: the 4-byte little-endian pixel-data offset at bytes 10..14 of the
synthesized container equals `14 + 124` (file header plus
`BITMAPV5HEADER`) when the info-header's `size_image` field (bytes 20..24
of the DIB) is zero, and `14 + (len(raw) - size_image)` when it is
nonzero (given `size_image ≤ len(raw)` and no `u32` overflow). -/
theorem wrap_dib_offset_field (raw : List Nat) (h124 : 124 ≤ raw.length)
    (hfit : raw.length + 14 < 2 ^ 32) (hS : readU32 raw 20 ≤ raw.length) :
    ∃ c, wrap_dib raw.length raw = some c ∧
      (readU32 raw 20 = 0 → (c.drop 10).take 4 = u32le (14 + 124)) ∧
      (readU32 raw 20 ≠ 0 →
        (c.drop 10).take 4 = u32le (14 + (raw.length - readU32 raw 20))) := by
  refine ⟨_, wrap_dib_eq raw.length raw h124, ?_, ?_⟩
  · intro h0
    show u32le (dibOffset raw.length raw) = u32le (14 + 124)
    rw [dibOffset, if_pos h0]
  · intro hne
    show u32le (dibOffset raw.length raw) =
      u32le (14 + (raw.length - readU32 raw 20))
    rw [dibOffset, if_neg hne]
    congr 1
    omega

theorem wrap_dib_offset_field_witness :
    ∃ c, wrap_dib dib0.length dib0 = some c ∧
      (readU32 dib0 20 = 0 → (c.drop 10).take 4 = u32le (14 + 124)) ∧
      (readU32 dib0 20 ≠ 0 →
        (c.drop 10).take 4 = u32le (14 + (dib0.length - readU32 dib0 20))) :=
  wrap_dib_offset_field dib0 (by decide) (by decide) (by decide)

/-- C6: header reconstruction is idempotent — synthesizing a container
from the DIB blob obtained by stripping the 14-byte file header off a
container that `wrap_dib` itself produced reproduces that container byte
for byte. -/
theorem wrap_dib_roundtrip (raw c : List Nat) (h124 : 124 ≤ raw.length)
    (hw : wrap_dib raw.length raw = some c) :
    wrap_dib (c.drop 14).length (c.drop 14) = some c := by
  have hc := wrap_dib_eq raw.length raw h124
  rw [hw] at hc
  obtain rfl := Option.some.injEq _ _ ▸ hc
  exact wrap_dib_eq raw.length raw h124

theorem wrap_dib_roundtrip_witness :
    wrap_dib (dib0c.drop 14).length (dib0c.drop 14) = some dib0c :=
  wrap_dib_roundtrip dib0 dib0c (by decide) (by decide)

/-- Every catalog entry's kind is `"binary"` or `"string"`. -/
theorem kind_cases (imgtype : String) (mf : MappedFormat)
    (h : get_mappedformat_for imgtype = some mf) :
    mf.kind = "binary" ∨ mf.kind = "string" := by
  unfold get_mappedformat_for at h
  split at h <;> try exact Option.noConfusion h
  all_goals (obtain rfl := Option.some.inj h; decide)

/-- If every enumerated format has a name and none of those names is
requested, the scan exhausts and returns the initial `(0, "")`. -/
theorem get_id_for_format_exhaust (requested : List String)
    (fmts : List (Nat × Option String))
    (hnm : ∀ p ∈ fmts, ∀ s, p.2 = some s → s ∉ requested)
    (hsome : ∀ p ∈ fmts, ∃ s, p.2 = some s) :
    get_id_for_format requested fmts = some (0, "") := by
  induction fmts with
  | nil => rfl
  | cons p rest ih =>
    obtain ⟨no, availName⟩ := p
    obtain ⟨s, hs⟩ := hsome _ (List.mem_cons_self _ _)
    simp only at hs
    subst hs
    simp only [get_id_for_format]
    rw [if_neg (hnm _ (List.mem_cons_self _ _) s rfl)]
    exact ih (fun p hp s hs => hnm p (List.mem_cons_of_mem _ hp) s hs)
      (fun p hp => hsome p (List.mem_cons_of_mem _ hp))

/-- A preferred name whose resolution comes back empty (`id = 0`) falls
through to the next preferred name. -/
theorem buildLoop_cons_no_match (env : ClipEnv) (pf : String)
    (rest : List String) (mf : MappedFormat)
    (hmf : get_mappedformat_for pf = some mf)
    (hres : get_id_for_format mf.names env.formats = some (0, "")) :
    buildLoop env (pf :: rest) = buildLoop env rest := by
  rcases kind_cases pf mf hmf with hk | hk <;>
    simp [buildLoop, hmf, hres, hk]

/-- C9: while scanning the enumerated formats, the resolver unwraps
`format_name` for every identifier it visits; if the lookup yields no
name before any match was found, the call panics (`none`) — it neither
skips the entry nor reports not-found, even when a match exists later. -/
theorem resolver_unwraps_format_name (requested : List String)
    (pre : List (Nat × Option String)) (no : Nat)
    (rest : List (Nat × Option String))
    (hpre : ∀ p ∈ pre, ∃ s, p.2 = some s ∧ s ∉ requested) :
    get_id_for_format requested (pre ++ (no, none) :: rest) = none := by
  induction pre with
  | nil => rfl
  | cons p pre ih =>
    obtain ⟨s, hs, hnotin⟩ := hpre p (List.mem_cons_self _ _)
    obtain ⟨a, b⟩ := p
    simp only at hs
    subst hs
    simp only [List.cons_append, get_id_for_format]
    rw [if_neg hnotin]
    exact ih (fun q hq => hpre q (List.mem_cons_of_mem _ hq))

theorem resolver_unwraps_format_name_witness :
    get_id_for_format ["PNG"]
      ([(1, some ("X"))] ++ (2, (none : Option String)) ::
        [(3, some ("PNG"))]) = none :=
  resolver_unwraps_format_name ["PNG"] [(1, some ("X"))] 2
    [(3, some ("PNG"))]
    (by
      intro p hp
      rw [List.mem_singleton] at hp
      subst hp
      exact ⟨"X", rfl, by decide⟩)

/-- C4: first preference wins. Inner scan: the first enumerated
identifier whose name is a candidate is returned, whatever follows.
Outer loop: once the first preferred name resolves (`id ≠ 0`), the
remaining preferred names never influence the result. -/
theorem resolver_first_preference_wins :
    (∀ (requested : List String) (pre : List (Nat × Option String))
        (no : Nat) (nm : String) (rest : List (Nat × Option String)),
      (∀ p ∈ pre, ∃ s, p.2 = some s ∧ s ∉ requested) →
      nm ∈ requested →
      get_id_for_format requested (pre ++ (no, some nm) :: rest) =
        some (no, nm)) ∧
    (∀ (env : ClipEnv) (p1 : String) (rest : List String)
        (mf : MappedFormat) (id : Nat) (name : String),
      get_mappedformat_for p1 = some mf →
      get_id_for_format mf.names env.formats = some (id, name) →
      id ≠ 0 →
      fromFormats env (p1 :: rest) = fromFormats env [p1]) := by
  constructor
  · intro requested pre no nm rest hpre hnm
    induction pre with
    | nil =>
      simp only [List.nil_append, get_id_for_format]
      rw [if_pos hnm]
    | cons p pre ih =>
      obtain ⟨s, hs, hnotin⟩ := hpre p (List.mem_cons_self _ _)
      obtain ⟨a, b⟩ := p
      simp only at hs
      subst hs
      simp only [List.cons_append, get_id_for_format]
      rw [if_neg hnotin]
      exact ih (fun q hq => hpre q (List.mem_cons_of_mem _ hq))
  · intro env p1 rest mf id name hmf hres hid
    rcases kind_cases p1 mf hmf with hk | hk <;>
      simp [fromFormats, buildLoop, hmf, hres, hk, hid]

theorem resolver_first_preference_wins_witness :
    get_id_for_format ["PNG", "image/png"]
      ([(1, some ("X"))] ++ (2, some ("PNG")) ::
        [(3, some ("image/png"))]) = some (2, "PNG") ∧
    fromFormats envDemo ["Bmp", "Png"] = fromFormats envDemo ["Bmp"] :=
  ⟨resolver_first_preference_wins.1 ["PNG", "image/png"]
      [(1, some ("X"))] 2 ("PNG") [(3, some ("image/png"))]
      (by
        intro p hp
        rw [List.mem_singleton] at hp
        subst hp
        exact ⟨"X", rfl, by decide⟩)
      (by decide),
    resolver_first_preference_wins.2 envDemo ("Bmp") ["Png"]
      ⟨"binary", ["CF_DIBV5", ""], some ImageFormat.Bmp⟩ 2 ("CF_DIBV5")
      (by decide) (by decide) (by decide)⟩

/-- C7: when no preferred name's candidate names occur among the
enumerated formats (all of which have names), the builder exhausts the
list and returns `NotFound`. -/
theorem builder_exhaustion_notfound (env : ClipEnv) (preferred : List String)
    (hsome : ∀ p ∈ env.formats, ∃ s, p.2 = some s)
    (hmiss : ∀ pf ∈ preferred, ∃ mf, get_mappedformat_for pf = some mf ∧
        ∀ p ∈ env.formats, ∀ s, p.2 = some s → s ∉ mf.names) :
    fromFormats env preferred = some ClipboardImage.NotFound := by
  induction preferred with
  | nil => rfl
  | cons pf rest ih =>
    obtain ⟨mf, hmf, hnm⟩ := hmiss pf (List.mem_cons_self _ _)
    have hres := get_id_for_format_exhaust mf.names env.formats hnm hsome
    show buildLoop env (pf :: rest) = some ClipboardImage.NotFound
    rw [buildLoop_cons_no_match env pf rest mf hmf hres]
    exact ih (fun q hq => hmiss q (List.mem_cons_of_mem _ hq))

theorem builder_exhaustion_notfound_witness :
    fromFormats envDemo ["Gif", "Jpeg"] = some ClipboardImage.NotFound :=
  builder_exhaustion_notfound envDemo ["Gif", "Jpeg"]
    (by
      intro p hp
      rcases List.mem_cons.mp hp with rfl | hp
      · exact ⟨"PNG", rfl⟩
      rcases List.mem_cons.mp hp with rfl | hp
      · exact ⟨"CF_DIBV5", rfl⟩
      · cases hp)
    (by
      intro pf hpf
      have hmem :
          ∀ mf : MappedFormat, get_mappedformat_for pf = some mf →
            ∀ p ∈ envDemo.formats, ∀ s, p.2 = some s → s ∉ mf.names := by
        intro mf hmf p hp s hs
        rcases List.mem_cons.mp hpf with rfl | hpf'
        · cases hmf
          rcases List.mem_cons.mp hp with rfl | hp
          · cases hs; decide
          rcases List.mem_cons.mp hp with rfl | hp
          · cases hs; decide
          · cases hp
        · rw [List.mem_singleton] at hpf'
          subst hpf'
          cases hmf
          rcases List.mem_cons.mp hp with rfl | hp
          · cases hs; decide
          rcases List.mem_cons.mp hp with rfl | hp
          · cases hs; decide
          · cases hp
      rcases List.mem_cons.mp hpf with rfl | hpf'
      · exact ⟨_, rfl, hmem _ rfl⟩
      · rw [List.mem_singleton] at hpf'
        subst hpf'
        exact ⟨_, rfl, hmem _ rfl⟩)

/-- C1 as written is false: in `envDemo`, the preferred name `"Png"`
resolves (id 1) but its decode fails, and `"Bmp"` alone would succeed —
yet the two-name call returns `NotFound` without trying `"Bmp"`: the
loop `break`s after any resolved attempt, successful or not. -/
theorem builder_fallthrough_refuted :
    get_id_for_format ["PNG", "image/png"] envDemo.formats =
      some (1, "PNG") ∧
    envDemo.decode [1, 2, 3] ImageFormat.Png = none ∧
    fromFormats envDemo ["Bmp"] =
      some (ClipboardImage.ImageBinary ImageFormat.Bmp (some (7 : Nat))) ∧
    fromFormats envDemo ["Png", "Bmp"] = some ClipboardImage.NotFound := by
  refine ⟨by decide, by decide, by decide, by decide⟩

/-- C1 amended: a codec or fetch failure on a preferred name that
successfully resolved IS fatal — the loop breaks and the call returns
`NotFound` no matter which preferred names remain. The conjuncts cover
every resolved-attempt failure mode of the source: a decode failure and
a fetch failure on a non-`CF_DIBV5` binary name; a decode failure, a
failed fetch, and an empty fetch on the `CF_DIBV5` (legacy DIB) path; a
fetch failure on a string-kind name. The last conjunct shows the builder
moves on to the next preferred name only when resolution found nothing
(`id = 0`); `NotFound` is returned once every name is exhausted. -/
theorem builder_resolved_failure_is_fatal :
    (∀ (env : ClipEnv) (pf : String) (rest : List String)
        (mf : MappedFormat) (id : Nat) (name : String) (raw : List Nat)
        (fmt : ImageFormat),
      get_mappedformat_for pf = some mf →
      mf.kind = "binary" →
      get_id_for_format mf.names env.formats = some (id, name) →
      id ≠ 0 →
      name ≠ "CF_DIBV5" →
      env.getVec id = some raw →
      mf.format = some fmt →
      env.decode raw fmt = none →
      fromFormats env (pf :: rest) = some ClipboardImage.NotFound) ∧
    (∀ (env : ClipEnv) (pf : String) (rest : List String)
        (mf : MappedFormat) (id : Nat) (name : String),
      get_mappedformat_for pf = some mf →
      mf.kind = "binary" →
      get_id_for_format mf.names env.formats = some (id, name) →
      id ≠ 0 →
      name ≠ "CF_DIBV5" →
      env.getVec id = none →
      fromFormats env (pf :: rest) = some ClipboardImage.NotFound) ∧
    (∀ (env : ClipEnv) (pf : String) (rest : List String)
        (mf : MappedFormat) (id rawsize : Nat) (raw store : List Nat)
        (fmt : ImageFormat),
      get_mappedformat_for pf = some mf →
      mf.kind = "binary" →
      get_id_for_format mf.names env.formats = some (id, "CF_DIBV5") →
      id ≠ 0 →
      env.sizeOf id = some rawsize →
      env.getVec id = some raw →
      raw.length > 0 →
      wrap_dib rawsize raw = some store →
      mf.format = some fmt →
      env.decode store fmt = none →
      fromFormats env (pf :: rest) = some ClipboardImage.NotFound) ∧
    (∀ (env : ClipEnv) (pf : String) (rest : List String)
        (mf : MappedFormat) (id rawsize : Nat),
      get_mappedformat_for pf = some mf →
      mf.kind = "binary" →
      get_id_for_format mf.names env.formats = some (id, "CF_DIBV5") →
      id ≠ 0 →
      env.sizeOf id = some rawsize →
      env.getVec id = none →
      fromFormats env (pf :: rest) = some ClipboardImage.NotFound) ∧
    (∀ (env : ClipEnv) (pf : String) (rest : List String)
        (mf : MappedFormat) (id rawsize : Nat) (raw : List Nat),
      get_mappedformat_for pf = some mf →
      mf.kind = "binary" →
      get_id_for_format mf.names env.formats = some (id, "CF_DIBV5") →
      id ≠ 0 →
      env.sizeOf id = some rawsize →
      env.getVec id = some raw →
      raw.length = 0 →
      fromFormats env (pf :: rest) = some ClipboardImage.NotFound) ∧
    (∀ (env : ClipEnv) (pf : String) (rest : List String)
        (mf : MappedFormat) (id : Nat) (name : String),
      get_mappedformat_for pf = some mf →
      mf.kind = "string" →
      get_id_for_format mf.names env.formats = some (id, name) →
      id ≠ 0 →
      env.getVec id = none →
      fromFormats env (pf :: rest) = some ClipboardImage.NotFound) ∧
    (∀ (env : ClipEnv) (pf : String) (rest : List String)
        (mf : MappedFormat),
      get_mappedformat_for pf = some mf →
      get_id_for_format mf.names env.formats = some (0, "") →
      fromFormats env (pf :: rest) = fromFormats env rest) := by
  refine ⟨?_, ?_, ?_, ?_, ?_, ?_, ?_⟩
  · intro env pf rest mf id name raw fmt hmf hkind hres hid hname hgv hfmt hdec
    simp [fromFormats, buildLoop, hmf, hkind, hres, hid, hname, hgv, hfmt,
      hdec]
  · intro env pf rest mf id name hmf hkind hres hid hname hgv
    simp [fromFormats, buildLoop, hmf, hkind, hres, hid, hname, hgv]
  · intro env pf rest mf id rawsize raw store fmt hmf hkind hres hid hsz hgv
      hlen hwrap hfmt hdec
    simp [fromFormats, buildLoop, hmf, hkind, hres, hid, hsz, hgv, hlen,
      hwrap, hfmt, hdec]
  · intro env pf rest mf id rawsize hmf hkind hres hid hsz hgv
    simp [fromFormats, buildLoop, hmf, hkind, hres, hid, hsz, hgv]
  · intro env pf rest mf id rawsize raw hmf hkind hres hid hsz hgv hlen
    simp [fromFormats, buildLoop, hmf, hkind, hres, hid, hsz, hgv, hlen]
  · intro env pf rest mf id name hmf hkind hres hid hgv
    simp [fromFormats, buildLoop, hmf, hkind, hres, hid, hgv]
  · intro env pf rest mf hmf hres
    exact buildLoop_cons_no_match env pf rest mf hmf hres

theorem builder_resolved_failure_is_fatal_witness :
    fromFormats envDemo ["Png", "Bmp"] = some ClipboardImage.NotFound ∧
    fromFormats envFetchFail ["Png", "Gif"] = some ClipboardImage.NotFound ∧
    fromFormats envDibFail ["Bmp", "Png"] = some ClipboardImage.NotFound ∧
    fromFormats envFetchFail ["Bmp", "Png"] = some ClipboardImage.NotFound ∧
    fromFormats envDibEmpty ["Bmp", "Png"] = some ClipboardImage.NotFound ∧
    fromFormats envFetchFail ["Svg", "Png"] = some ClipboardImage.NotFound ∧
    fromFormats envDemo ["Gif", "Bmp"] = fromFormats envDemo ["Bmp"] :=
  ⟨builder_resolved_failure_is_fatal.1 envDemo ("Png") ["Bmp"]
      ⟨"binary", ["PNG", "image/png"], some ImageFormat.Png⟩ 1 ("PNG")
      [1, 2, 3] ImageFormat.Png (by decide) (by decide) (by decide)
      (by decide) (by decide) (by decide) (by decide) (by decide),
    builder_resolved_failure_is_fatal.2.1 envFetchFail ("Png") ["Gif"]
      ⟨"binary", ["PNG", "image/png"], some ImageFormat.Png⟩ 1 ("PNG")
      (by decide) (by decide) (by decide) (by decide) (by decide)
      (by decide),
    builder_resolved_failure_is_fatal.2.2.1 envDibFail ("Bmp") ["Png"]
      ⟨"binary", ["CF_DIBV5", ""], some ImageFormat.Bmp⟩ 2 124 dib0 dib0c
      ImageFormat.Bmp (by decide) (by decide) (by decide) (by decide)
      (by decide) (by decide) (by decide) (by decide) (by decide)
      (by decide),
    builder_resolved_failure_is_fatal.2.2.2.1 envFetchFail ("Bmp") ["Png"]
      ⟨"binary", ["CF_DIBV5", ""], some ImageFormat.Bmp⟩ 2 3 (by decide)
      (by decide) (by decide) (by decide) (by decide) (by decide),
    builder_resolved_failure_is_fatal.2.2.2.2.1 envDibEmpty ("Bmp") ["Png"]
      ⟨"binary", ["CF_DIBV5", ""], some ImageFormat.Bmp⟩ 2 124 []
      (by decide) (by decide) (by decide) (by decide) (by decide)
      (by decide) (by decide),
    builder_resolved_failure_is_fatal.2.2.2.2.2.1 envFetchFail ("Svg")
      ["Png"] ⟨"string", ["image/svg+xml", ""], none⟩ 3 ("image/svg+xml")
      (by decide) (by decide) (by decide) (by decide) (by decide),
    builder_resolved_failure_is_fatal.2.2.2.2.2.2 envDemo ("Gif") ["Bmp"]
      ⟨"binary", ["GIF", "image/gif"], some ImageFormat.Gif⟩ (by decide)
      (by decide)⟩

/-- Any name outside the seven known entries falls to the catalog's
default arm. -/
theorem get_mappedformat_for_unknown (n : String)
    (h : n ∉ (["Bmp", "Png", "Jpeg", "Gif", "Ico", "WebP", "Svg"] :
      List String)) :
    get_mappedformat_for n = none := by
  unfold get_mappedformat_for
  split
  all_goals simp_all

/-- C8: the catalog is pure and total — it is populated exactly on the
seven known names — and a preferred name absent from it fails the whole
call (panic, modelled `none`) as soon as it is reached, whatever follows
and without any partial result. -/
theorem catalog_total_unknown_fail_fast :
    (∀ n : String,
      (∃ mf, get_mappedformat_for n = some mf) ↔
        n ∈ (["Bmp", "Png", "Jpeg", "Gif", "Ico", "WebP", "Svg"] :
          List String)) ∧
    (∀ (env : ClipEnv) (pre : List String) (bad : String)
        (rest : List String),
      get_mappedformat_for bad = none →
      (∀ p ∈ pre, ∃ mf, get_mappedformat_for p = some mf ∧
          get_id_for_format mf.names env.formats = some (0, "")) →
      fromFormats env (pre ++ bad :: rest) = none) := by
  constructor
  · intro n
    constructor
    · rintro ⟨mf, hmf⟩
      by_contra hmem
      rw [get_mappedformat_for_unknown n hmem] at hmf
      exact Option.noConfusion hmf
    · intro h
      fin_cases h <;> exact ⟨_, rfl⟩
  · intro env pre bad rest hbad hpre
    induction pre with
    | nil =>
      show buildLoop env (bad :: rest) = none
      simp [buildLoop, hbad]
    | cons p pre ih =>
      obtain ⟨mf, hmf, hres⟩ := hpre p (List.mem_cons_self _ _)
      show buildLoop env (p :: (pre ++ bad :: rest)) = none
      rw [buildLoop_cons_no_match env p (pre ++ bad :: rest) mf hmf hres]
      exact ih (fun q hq => hpre q (List.mem_cons_of_mem _ hq))

theorem catalog_total_unknown_fail_fast_witness :
    (∃ mf, get_mappedformat_for ("Svg") = some mf) ∧
    fromFormats envDemo (["Gif"] ++ "Nope" :: ["Bmp"]) = none :=
  ⟨(catalog_total_unknown_fail_fast.1 ("Svg")).mpr (by decide),
    catalog_total_unknown_fail_fast.2 envDemo ["Gif"] ("Nope") ["Bmp"]
      (by decide)
      (by
        intro p hp
        rw [List.mem_singleton] at hp
        subst hp
        exact ⟨_, rfl, by decide⟩)⟩

/-- C10: every single-candidate catalog entry (Bmp, Ico, WebP, Svg) pads
its two-slot candidate array with the empty string, and that empty
string takes part in matching: an enumerated format named `""` matches
the entry and is returned as the resolved identifier and name. -/
theorem empty_string_candidate_matches :
    ∀ n ∈ (["Bmp", "Ico", "WebP", "Svg"] : List String),
      ∃ mf, get_mappedformat_for n = some mf ∧
        mf.names.getD 1 ("?") = "" ∧
        ∀ (id : Nat) (rest : List (Nat × Option String)),
          get_id_for_format mf.names ((id, some ("")) :: rest) =
            some (id, "") := by
  intro n hn
  fin_cases hn <;>
    exact ⟨_, rfl, rfl, fun id rest => by simp [get_id_for_format]⟩

theorem empty_string_candidate_matches_witness :
    ∃ mf, get_mappedformat_for ("Bmp") = some mf ∧
      mf.names.getD 1 ("?") = "" ∧
      ∀ (id : Nat) (rest : List (Nat × Option String)),
        get_id_for_format mf.names ((id, some ("")) :: rest) =
          some (id, "") :=
  empty_string_candidate_matches ("Bmp") (by decide)

/-- C5: `write_to_buffer` on a string image appends exactly the stored
bytes and returns the buffer's new total length; on `NotFound` it
returns 0 with the buffer untouched; on a binary image it returns the
length increase (`out.len() - out_before`), which is the count of newly
written bytes, not the total length. -/
theorem write_to_buffer_spec
    (encode : DynamicImage → ImageFormat → Option (List Nat)) :
    (∀ (id : Nat) (nm : String) (s out : List Nat),
      write_to_buffer encode (ClipboardImage.ImageString id nm s) out =
        some (out ++ s, (out ++ s).length)) ∧
    (∀ out : List Nat,
      write_to_buffer encode ClipboardImage.NotFound out = some (out, 0)) ∧
    (∀ (f : ImageFormat) (d : DynamicImage) (enc out : List Nat),
      encode d f = some enc →
      write_to_buffer encode (ClipboardImage.ImageBinary f (some d)) out =
        some (out ++ enc, (out ++ enc).length - out.length) ∧
      (out ++ enc).length - out.length = enc.length) := by
  refine ⟨fun id nm s out => rfl, fun out => rfl, ?_⟩
  intro f d enc out henc
  refine ⟨by simp [write_to_buffer, henc], by simp⟩

theorem write_to_buffer_spec_witness :
    write_to_buffer enc0
        (ClipboardImage.ImageBinary ImageFormat.Png (some (5 : Nat)))
        [9, 9] =
      some ([9, 9] ++ [5], ([9, 9] ++ [5]).length - [9, 9].length) ∧
    ([9, 9] ++ [5]).length - [9, 9].length = [5].length :=
  (write_to_buffer_spec enc0).2.2 ImageFormat.Png (5 : Nat) [5] [9, 9] rfl
